import Mathlib

/-!
Shallow embedding of `.github/wasi_testsuite_adapter.py` from tetratelabs/wazero.

The script resolves the target invocation from the `TEST_RUNTIME_EXE`
environment variable via `shlex.split`, parses the standardized harness flags,
and either reports a normalized version string or assembles and launches a
`run` invocation of the target runtime, propagating the child's exit code.
-/

namespace WasiAdapter

/-- Whitespace characters of Python's `shlex` lexer (`shlex.whitespace`). -/
def isShlexSpace (c : Char) : Bool :=
  c = ' ' || c = '\t' || c = '\r' || c = '\n'

/-- Whitespace stripped by Python's `str.strip()` (ASCII set). -/
def isPySpace (c : Char) : Bool :=
  c = ' ' || c = '\t' || c = '\n' || c = '\r' || c = '\x0b' || c = '\x0c'

/-- Lexer modes of Python's `shlex` in POSIX mode: outside or inside a token,
inside single quotes, inside double quotes, or just after a backslash
(outside quotes, or inside double quotes). -/
inductive SMode where
  | norm
  | single
  | double
  | escNorm
  | escDouble
deriving DecidableEq

/-- One-character-per-step state machine for `shlex.split` (POSIX mode,
whitespace-split, no comments). `started` records whether the current token
has begun (so that quotes can produce an empty token), `cur` is the token
accumulated so far, `acc` the finished tokens. `none` models the
`ValueError` raised on an unterminated quote or trailing escape. -/
def shlexAux : SMode → Bool → List Char → List Char → List (List Char) →
    Option (List (List Char))
  | .norm, started, cur, [], acc =>
      some (if started then acc ++ [cur] else acc)
  | .single, _, _, [], _ => none
  | .double, _, _, [], _ => none
  | .escNorm, _, _, [], _ => none
  | .escDouble, _, _, [], _ => none
  | .norm, started, cur, c :: rest, acc =>
      if isShlexSpace c then
        shlexAux .norm false [] rest (if started then acc ++ [cur] else acc)
      else if c = '\\' then
        shlexAux .escNorm started cur rest acc
      else if c = '\'' then
        shlexAux .single true cur rest acc
      else if c = '"' then
        shlexAux .double true cur rest acc
      else
        shlexAux .norm true (cur ++ [c]) rest acc
  | .escNorm, _, cur, c :: rest, acc =>
      shlexAux .norm true (cur ++ [c]) rest acc
  | .single, _, cur, c :: rest, acc =>
      if c = '\'' then shlexAux .norm true cur rest acc
      else shlexAux .single true (cur ++ [c]) rest acc
  | .double, _, cur, c :: rest, acc =>
      if c = '"' then shlexAux .norm true cur rest acc
      else if c = '\\' then shlexAux .escDouble true cur rest acc
      else shlexAux .double true (cur ++ [c]) rest acc
  | .escDouble, _, cur, c :: rest, acc =>
      if c = '"' || c = '\\' then shlexAux .double true (cur ++ [c]) rest acc
      else shlexAux .double true (cur ++ ['\\', c]) rest acc

/-- Model of Python `shlex.split` as used on line 10 of the script:
POSIX-mode shell-quoting tokenization; `none` models the lexer's
`ValueError` failure signal. -/
def shlexSplit (s : String) : Option (List String) :=
  (shlexAux .norm false [] s.toList []).map (fun ts => ts.map String.mk)

/-- Model of Python `os.getenv(var, default)`: the default is used only when
the variable is absent; an empty-string value is returned as such. -/
def getenvD (v : Option String) (d : String) : String := v.getD d

/-- Line 10 of the script:
`WAZERO = shlex.split(os.getenv("TEST_RUNTIME_EXE", "wazero"))`,
as a function of the (possibly absent) environment variable value. -/
def resolveTarget (cfg : Option String) : Option (List String) :=
  shlexSplit (getenvD cfg "wazero")

/-- Model of Python `str.strip()`: drop whitespace from both ends. -/
def pyStrip (s : String) : String :=
  String.mk (((s.toList.dropWhile isPySpace).reverse.dropWhile isPySpace).reverse)

/-- Model of Python `os.path.dirname` (posixpath): take everything up to and
including the last `/`, then drop trailing slashes unless the head is empty
or consists only of slashes. -/
def dirname (p : String) : String :=
  let cs := p.toList
  let i := cs.length - (cs.reverse.takeWhile (fun c => c != '/')).length
  let head := cs.take i
  if head.isEmpty || head.all (fun c => c == '/') then String.mk head
  else String.mk ((head.reverse.dropWhile (fun c => c == '/')).reverse)

/-- The parsed request produced by the script's `argparse` configuration:
`--version` (store true), `--test-file` (store, default `None`),
`--arg` / `--env` / `--dir` (append, default `[]`). -/
structure ParsedArgs where
  version : Bool
  test_file : Option String
  arg : List String
  env : List String
  dir : List String
deriving DecidableEq

/-- Observable subprocess activity: a captured-output invocation (the
`version` query) or a spawned child with a working directory (the run form). -/
inductive Event where
  | capturedRun (argv : List String)
  | spawn (argv : List String) (cwd : String)
deriving DecidableEq

/-- Observable result of one adapter invocation: what it printed, the exit
status it terminates with, and the subprocess activity it performed. -/
structure Outcome where
  stdout : String
  exitCode : Int
  events : List Event
deriving DecidableEq

/-- Unhandled Python exceptions the script can die with before launching the
run-form child: `ValueError` from `shlex.split`, or `TypeError` from
`os.path.dirname(None)` when `--test-file` was not supplied. -/
inductive AdapterError where
  | valueError
  | typeError
deriving DecidableEq

/-- Lines 32-34: `PROG_ARGS = []` then `if args.arg: PROG_ARGS = ["--"] + args.arg`. -/
def PROG_ARGS_of (arg : List String) : List String :=
  if arg = [] then [] else "--" :: arg

/-- Line 35: `ENV_ARGS = [f"-env={e}" for e in args.env]`. -/
def ENV_ARGS_of (env : List String) : List String :=
  env.map (fun e => "-env=" ++ e)

/-- Line 37: `DIR_ARGS = [f"-mount={cwd}/{dir}:{dir}" for dir in args.dir]`. -/
def DIR_ARGS_of (cwd : String) (dirs : List String) : List String :=
  dirs.map (fun d => "-mount=" ++ cwd ++ "/" ++ d ++ ":" ++ d)

/-- Lines 39-46: the assembled child argument vector `PROG`. -/
def PROG_of (wazero : List String) (cwd tf : String)
    (arg env dirs : List String) : List String :=
  wazero ++ ["run", "-hostlogging=filesystem"] ++ ENV_ARGS_of env
    ++ DIR_ARGS_of cwd dirs ++ [tf] ++ PROG_ARGS_of arg

/-- Lines 21-47 of the script, after `WAZERO` has been resolved: either the
version path (capture `<target> version` output, strip it, substitute the
`dev` placeholder, print `wazero <version>` and exit 0) or the run path
(assemble `PROG`, spawn it with working directory `dirname test_file`, and
exit with the child's return code). `versionStdout` is the captured standard
output of the version query; `childCode` gives the run-form child's exit code
as a function of its argument vector and working directory. -/
def translate (WAZERO : List String) (cwd versionStdout : String)
    (childCode : List String → String → Int) (args : ParsedArgs) :
    Except AdapterError Outcome :=
  if args.version then
    let v := pyStrip versionStdout
    let v := if v = "dev" then "0.0.0" else v
    .ok { stdout := "wazero " ++ v ++ "\n", exitCode := 0,
          events := [.capturedRun (WAZERO ++ ["version"])] }
  else
    match args.test_file with
    | none => .error .typeError
    | some TEST_FILE =>
      let TEST_DIR := dirname TEST_FILE
      let PROG := PROG_of WAZERO cwd TEST_FILE args.arg args.env args.dir
      .ok { stdout := "", exitCode := childCode PROG TEST_DIR,
            events := [.spawn PROG TEST_DIR] }

/-- The whole script: resolve `WAZERO` from the environment variable (dying
with `ValueError` if the configured string is malformed), then dispatch. -/
def adapterMain (cfg : Option String) (cwd versionStdout : String)
    (childCode : List String → String → Int) (args : ParsedArgs) :
    Except AdapterError Outcome :=
  match resolveTarget cfg with
  | none => .error .valueError
  | some WAZERO => translate WAZERO cwd versionStdout childCode args

/-- Every element of a list satisfying a boolean predicate makes `takeWhile`
the identity. -/
theorem takeWhile_of_all {α : Type} (p : α → Bool) :
    ∀ l : List α, (∀ c ∈ l, p c = true) → l.takeWhile p = l
  | [], _ => rfl
  | a :: l, h => by
    simp [List.takeWhile_cons, h a (List.mem_cons_self a l),
      takeWhile_of_all p l (fun c hc => h c (List.mem_cons_of_mem a hc))]

/-- `os.path.dirname` of a path with no `/` separator is the empty string. -/
theorem dirname_no_slash (tf : String) (h : ∀ c ∈ tf.toList, c ≠ '/') :
    dirname tf = "" := by
  have htw : tf.toList.reverse.takeWhile (fun c => c != '/') = tf.toList.reverse := by
    refine takeWhile_of_all _ _ (fun c hc => ?_)
    simp only [List.mem_reverse] at hc
    simpa using h c hc
  simp only [dirname]
  rw [htw, List.length_reverse, Nat.sub_self, List.take_zero]
  decide

/-- C1: for every parsed request with `version_query` false, the assembled
child argument vector is the resolved target invocation tokens, then the
literal tokens `run` and `-hostlogging=filesystem`, then all `-env=` tokens,
then all `-mount=` tokens, then the `test_file` path, then the program-args
group; and the child is spawned with working directory set to the directory
portion of `test_file`. -/
theorem c1_run_vector_and_cwd (W : List String) (cwd vOut : String)
    (cc : List String → String → Int) (a : ParsedArgs) (tf : String)
    (hv : a.version = false) (ht : a.test_file = some tf) :
    translate W cwd vOut cc a =
      .ok { stdout := "",
            exitCode := cc (W ++ ["run", "-hostlogging=filesystem"]
              ++ a.env.map (fun e => "-env=" ++ e)
              ++ a.dir.map (fun d => "-mount=" ++ cwd ++ "/" ++ d ++ ":" ++ d)
              ++ [tf] ++ (if a.arg = [] then [] else "--" :: a.arg)) (dirname tf),
            events := [.spawn (W ++ ["run", "-hostlogging=filesystem"]
              ++ a.env.map (fun e => "-env=" ++ e)
              ++ a.dir.map (fun d => "-mount=" ++ cwd ++ "/" ++ d ++ ":" ++ d)
              ++ [tf] ++ (if a.arg = [] then [] else "--" :: a.arg)) (dirname tf)] } := by
  simp [translate, hv, ht, PROG_of, ENV_ARGS_of, DIR_ARGS_of, PROG_ARGS_of]

/-- C1 witness: the spec's end-to-end run scenario, at concrete inputs. -/
theorem c1_run_vector_and_cwd_witness :
    translate ["wazero"] "/w" "" (fun _ _ => 7)
      { version := false, test_file := some "tests/add.wasm",
        arg := ["1", "2"], env := ["FOO=1"], dir := ["sandbox"] } =
      .ok { stdout := "", exitCode := 7,
            events := [.spawn ["wazero", "run", "-hostlogging=filesystem",
              "-env=FOO=1", "-mount=/w/sandbox:sandbox", "tests/add.wasm",
              "--", "1", "2"] "tests"] } :=
  c1_run_vector_and_cwd ["wazero"] "/w" "" (fun _ _ => 7)
    { version := false, test_file := some "tests/add.wasm",
      arg := ["1", "2"], env := ["FOO=1"], dir := ["sandbox"] }
    "tests/add.wasm" rfl rfl

/-- C2 counterexample: with the configuration variable set to the empty
string, the resolved target invocation is the empty token list, not the
single default token `wazero` that the claim requires. -/
theorem c2_empty_config_counterexample :
    resolveTarget (some "") = some [] ∧
    (resolveTarget (some "") == some ["wazero"]) = false :=
  ⟨rfl, rfl⟩

/-- C2 amended: for every set configuration string `C`, resolving the target
invocation applies shell-quoting tokenization to `C`; only when the variable
is absent does it yield the single default token `wazero`; an empty-string
value yields the empty token sequence. -/
theorem c2_resolve_target (C : String) :
    resolveTarget (some C) = shlexSplit C ∧
    resolveTarget none = some ["wazero"] ∧
    resolveTarget (some "") = some [] :=
  ⟨rfl, rfl, rfl⟩

/-- C3: on a version query the adapter strips the captured version output,
substitutes `0.0.0` exactly when the stripped string is `dev`, prints
`wazero` followed by a single space and the version, and exits with 0. -/
theorem c3_version_output (W : List String) (cwd vOut : String)
    (cc : List String → String → Int) (a : ParsedArgs) (hv : a.version = true) :
    translate W cwd vOut cc a =
      .ok { stdout := "wazero "
              ++ (if pyStrip vOut = "dev" then "0.0.0" else pyStrip vOut) ++ "\n",
            exitCode := 0,
            events := [.capturedRun (W ++ ["version"])] } := by
  simp [translate, hv]

/-- C3 witness: captured output `dev` plus newline prints `wazero 0.0.0`. -/
theorem c3_version_output_witness :
    translate ["wazero"] "/w" "dev\n" (fun _ _ => 7)
      { version := true, test_file := none, arg := [], env := [], dir := [] } =
      .ok { stdout := "wazero 0.0.0\n", exitCode := 0,
            events := [.capturedRun ["wazero", "version"]] } :=
  c3_version_output ["wazero"] "/w" "dev\n" (fun _ _ => 7)
    { version := true, test_file := none, arg := [], env := [], dir := [] } rfl

/-- C4: the version path is independent of `test_file`, `program_args`,
`env_vars`, `mount_dirs` and of the run-form child's behavior, and its only
subprocess activity is the captured version query — no run-form spawn. -/
theorem c4_version_frame (W : List String) (cwd vOut : String)
    (cc cc' : List String → String → Int) (tf tf' : Option String)
    (a a' e e' d d' : List String) :
    translate W cwd vOut cc
        { version := true, test_file := tf, arg := a, env := e, dir := d } =
      translate W cwd vOut cc'
        { version := true, test_file := tf', arg := a', env := e', dir := d' } ∧
    Except.map Outcome.events
        (translate W cwd vOut cc
          { version := true, test_file := tf, arg := a, env := e, dir := d }) =
      .ok [Event.capturedRun (W ++ ["version"])] := by
  constructor <;> simp [translate, Except.map]

/-- C5: on the run path the adapter's exit code equals the child's return
code, whatever integer that is, with no translation or remapping. -/
theorem c5_exit_code_passthrough (W : List String) (cwd vOut : String)
    (code : Int) (a : ParsedArgs) (tf : String)
    (hv : a.version = false) (ht : a.test_file = some tf) :
    Except.map Outcome.exitCode (translate W cwd vOut (fun _ _ => code) a) =
      .ok code := by
  simp [translate, Except.map, hv, ht]

/-- C5 witness: a negative, signal-style child return code passes through. -/
theorem c5_exit_code_passthrough_witness :
    Except.map Outcome.exitCode
      (translate ["wazero"] "/w" "" (fun _ _ => (-11 : Int))
        { version := false, test_file := some "t.wasm",
          arg := [], env := [], dir := [] }) =
      .ok (-11 : Int) :=
  c5_exit_code_passthrough ["wazero"] "/w" "" (-11)
    { version := false, test_file := some "t.wasm",
      arg := [], env := [], dir := [] } "t.wasm" rfl rfl

/-- C6: an empty `program_args` list appends neither a `--` token nor any
trailing tokens, and a non-empty one makes the vector end with a single `--`
followed by the program arguments in their original order. -/
theorem c6_program_args_group (W : List String) (cwd tf : String)
    (e d ar : List String) :
    (ar = [] → PROG_of W cwd tf ar e d =
      W ++ ["run", "-hostlogging=filesystem"] ++ ENV_ARGS_of e
        ++ DIR_ARGS_of cwd d ++ [tf]) ∧
    (ar ≠ [] → PROG_of W cwd tf ar e d =
      W ++ ["run", "-hostlogging=filesystem"] ++ ENV_ARGS_of e
        ++ DIR_ARGS_of cwd d ++ [tf] ++ ("--" :: ar)) := by
  constructor
  · intro h
    simp [PROG_of, PROG_ARGS_of, h]
  · intro h
    simp [PROG_of, PROG_ARGS_of, h]

/-- C6 witness: both cases at concrete inputs. -/
theorem c6_program_args_group_witness :
    PROG_of ["wazero"] "/w" "t.wasm" [] [] [] =
      ["wazero", "run", "-hostlogging=filesystem", "t.wasm"] ∧
    PROG_of ["wazero"] "/w" "t.wasm" ["a", "b"] [] [] =
      ["wazero", "run", "-hostlogging=filesystem", "t.wasm", "--", "a", "b"] :=
  ⟨(c6_program_args_group ["wazero"] "/w" "t.wasm" [] [] []).1 rfl,
   (c6_program_args_group ["wazero"] "/w" "t.wasm" [] [] ["a", "b"]).2
     (by decide)⟩

/-- C7: each `env_vars` entry `e` contributes exactly the token `-env=e`, in
input order, immediately after the `-hostlogging=filesystem` token. -/
theorem c7_env_tokens_after_hostlogging (W : List String) (cwd tf : String)
    (e d ar : List String) :
    ∃ rest, PROG_of W cwd tf ar e d =
      W ++ ["run", "-hostlogging=filesystem"]
        ++ e.map (fun x => "-env=" ++ x) ++ rest := by
  refine ⟨DIR_ARGS_of cwd d ++ [tf] ++ PROG_ARGS_of ar, ?_⟩
  simp [PROG_of, ENV_ARGS_of, List.append_assoc]

/-- C8: each `mount_dirs` entry `x` contributes exactly the token
`-mount=<cwd>/<x>:<x>`, in input order, after the `-env=` group. -/
theorem c8_mount_tokens_after_env (W : List String) (cwd tf : String)
    (e d ar : List String) :
    ∃ rest, PROG_of W cwd tf ar e d =
      W ++ ["run", "-hostlogging=filesystem"] ++ e.map (fun x => "-env=" ++ x)
        ++ d.map (fun x => "-mount=" ++ cwd ++ "/" ++ x ++ ":" ++ x) ++ rest := by
  refine ⟨[tf] ++ PROG_ARGS_of ar, ?_⟩
  simp [PROG_of, ENV_ARGS_of, DIR_ARGS_of, List.append_assoc]

/-- C9: with `version_query` false and no `test_file`, the script dies with
the unhandled `TypeError` from `os.path.dirname(None)` and never reaches the
child launch — no run-form invocation is spawned. -/
theorem c9_missing_test_file (W : List String) (cwd vOut : String)
    (cc : List String → String → Int) (a : ParsedArgs)
    (hv : a.version = false) (ht : a.test_file = none) :
    translate W cwd vOut cc a = .error .typeError := by
  simp [translate, hv, ht]

/-- C9 witness: concrete request with run-path flags but no test file. -/
theorem c9_missing_test_file_witness :
    translate ["wazero"] "/w" "" (fun _ _ => 7)
      { version := false, test_file := none,
        arg := ["x"], env := ["A=1"], dir := ["s"] } =
      .error .typeError :=
  c9_missing_test_file ["wazero"] "/w" "" (fun _ _ => 7)
    { version := false, test_file := none,
      arg := ["x"], env := ["A=1"], dir := ["s"] } rfl rfl

/-- C10: for a bare filename (no `/` separator), the working directory
handed to the child-launch primitive is the empty string, the directory
portion of `test_file` — not the current directory. -/
theorem c10_bare_filename_empty_cwd (W : List String) (cwd vOut : String)
    (cc : List String → String → Int) (a : ParsedArgs) (tf : String)
    (hv : a.version = false) (ht : a.test_file = some tf)
    (hs : ∀ c ∈ tf.toList, c ≠ '/') :
    dirname tf = "" ∧
    Except.map Outcome.events (translate W cwd vOut cc a) =
      .ok [Event.spawn (PROG_of W cwd tf a.arg a.env a.dir) ""] := by
  have hd := dirname_no_slash tf hs
  refine ⟨hd, ?_⟩
  simp [translate, Except.map, hv, ht, hd]

/-- C10 witness: the bare filename `add.wasm` yields working directory `""`. -/
theorem c10_bare_filename_empty_cwd_witness :
    dirname "add.wasm" = "" ∧
    Except.map Outcome.events
      (translate ["wazero"] "/w" "" (fun _ _ => 7)
        { version := false, test_file := some "add.wasm",
          arg := [], env := [], dir := [] }) =
      .ok [Event.spawn ["wazero", "run", "-hostlogging=filesystem", "add.wasm"]
            ""] :=
  c10_bare_filename_empty_cwd ["wazero"] "/w" "" (fun _ _ => 7)
    { version := false, test_file := some "add.wasm",
      arg := [], env := [], dir := [] } "add.wasm" rfl rfl (by decide)

end WasiAdapter
